import Mathlib

/-!
Shallow embedding of the adk-with-memorybank repository (src/main.py and
src/adk_web.py) and verification of its specification claims.

Remote SDK calls (Vertex AI session service, memory service, agent runner)
are modelled as oracle arguments of type `Except String α`: `.ok v` means
the remote call returned `v`, `.error e` means it raised an exception whose
`str(e)` is `e`.  Python dicts returned to the caller are modelled as
association lists of JSON values (`JDict`), with keys in the order the
Python dict literals write them.  The per-user session mapping
`self.sessions` is an association list from user id to session id.
-/

namespace ADK

/-- A JSON value as it appears in the dicts the interface returns. -/
inductive JVal where
  | s (v : String)
  | b (v : Bool)
  | null
  deriving DecidableEq, Repr

/-- A Python dict of JSON values, keys in literal order. -/
abbrev JDict := List (String × JVal)

/-- Dictionary field lookup (`d[k]` on the JSON object). -/
def jget (d : JDict) (k : String) : Option JVal :=
  List.lookup k d

/-- A part of a message or event content (`google.adk.types.Part`). -/
structure Part where
  text : String
  deriving DecidableEq, Repr

/-- Message/event content (`google.adk.types.Content`). -/
structure Content where
  role : String
  parts : List Part
  deriving DecidableEq, Repr

/-- A response event yielded by `runner.run_async`; `is_final_response` is
the result of the event's `is_final_response()` method and `content` is its
(possibly absent) content. -/
structure Event where
  is_final_response : Bool
  content : Option Content
  deriving DecidableEq, Repr

/-- A session handle returned by `session_service.create_session` /
`get_session`; only its `id` is read by this repository. -/
structure Session where
  id : String
  deriving DecidableEq, Repr

/-- Python dict membership `k in m` on the association-list model. -/
def hasKey (m : List (String × String)) (k : String) : Bool :=
  m.any (fun p => p.1 == k)

/-- Python dict assignment `m[k] = v` on the association-list model:
replace the binding of `k` if present, else append it. -/
def insertAssoc (k v : String) : List (String × String) → List (String × String)
  | [] => [(k, v)]
  | (k', v') :: t => if k' == k then (k, v) :: t else (k', v') :: insertAssoc k v t

/-- The local state of `ADKWebInterface` (src/adk_web.py lines 21-29).
All remote handles are opaque; they are modelled by `Option String`
(`none` before `initialize` runs, `some h` afterwards, where `h` stands
for the handle).  `sessions` is the user_id → session_id mapping. -/
structure ADKWebInterface where
  agent_engine : Option String
  agent_engine_id : Option String
  session_service : Option String
  memory_service : Option String
  agent : Option String
  app_name : Option String
  sessions : List (String × String)
  deriving DecidableEq, Repr

/-- The freshly constructed interface (`ADKWebInterface.__init__`). -/
def ADKWebInterface.new : ADKWebInterface :=
  ⟨none, none, none, none, none, none, []⟩

/-- `ADKWebInterface.initialize` (src/adk_web.py lines 31-78).  The one
remote call is `agent_engines.create()`, modelled by the oracle `engine`
returning the engine handle's name; the services and the agent are local
constructions parameterised by that id.  On failure the method prints and
re-raises, so the model propagates the error. -/
def initServices (engine : Except String String) (uuidHex : String)
    (st : ADKWebInterface) : Except String ADKWebInterface :=
  match engine with
  | .error e => .error e
  | .ok engineName =>
      .ok { st with
        agent_engine := some engineName,
        agent_engine_id := some engineName,
        session_service := some engineName,
        memory_service := some engineName,
        agent := some "web_memory_assistant",
        app_name := some ("adk_web_bot_" ++ uuidHex) }

/-- `ADKWebInterface.get_or_create_session` (src/adk_web.py lines 80-90).
`create` is the `session_service.create_session` oracle.  Returns the
session id (or the propagated exception), the updated state, and the
number of `create_session` calls performed. -/
def get_or_create_session (create : Except String Session)
    (st : ADKWebInterface) (user_id : String) :
    Except String String × ADKWebInterface × Nat :=
  match List.lookup user_id st.sessions with
  | some sid => (.ok sid, st, 0)
  | none =>
      match create with
      | .ok session =>
          (.ok session.id,
           { st with sessions := insertAssoc user_id session.id st.sessions }, 1)
      | .error e => (.error e, st, 1)

/-- The default reply when no final response is produced
(src/main.py line 97, src/adk_web.py line 105). -/
def defaultFinalText : String := "Agent did not produce a final response."

/-- The `async for event in runner.run_async(...)` loop shared by
`ADKMemoryBot.call_agent` (src/main.py lines 99-107) and
`ADKWebInterface.chat` (src/adk_web.py lines 107-115): walk the events in
order; at the first event with `is_final_response()`, if it has content
with a non-empty part list take the first part's text, and break; if the
stream ends without a final event keep the default text. -/
def finalResponseText : List Event → String
  | [] => defaultFinalText
  | e :: rest =>
      if e.is_final_response then
        match e.content with
        | some c =>
            match c.parts with
            | p :: _ => p.text
            | [] => defaultFinalText
        | none => defaultFinalText
      else finalResponseText rest

/-- `ADKMemoryBot.call_agent` (src/main.py lines 86-113).  `run` is the
oracle for the whole `runner.run_async` stream: `.ok events` is the list
of events it yields, `.error e` an exception raised during the turn.  The
query only feeds the remote call, so it does not affect the model's
output. -/
def call_agent (run : Except String (List Event)) (query : String) : String :=
  match run with
  | .ok events => finalResponseText events
  | .error e => "Sorry, I encountered an error: " ++ e

/-- The failure dict of `ADKWebInterface.chat`'s `except` branch
(src/adk_web.py lines 125-132): it re-reads
`self.sessions.get(user_id, "unknown")` from the current state. -/
def chatFailDict (e : String) (st : ADKWebInterface) (user_id now : String) : JDict :=
  [("success", .b false), ("error", .s e),
   ("session_id", .s ((List.lookup user_id st.sessions).getD "unknown")),
   ("user_id", .s user_id), ("timestamp", .s now)]

/-- `ADKWebInterface.chat` (src/adk_web.py lines 92-132).  Oracles:
`create` for the `create_session` call inside `get_or_create_session`,
`run` for the `runner.run_async` stream; `now` stands for
`datetime.utcnow().isoformat()`.  Returns the response dict and the
updated state.  The message only feeds the remote call. -/
def chat (create : Except String Session) (run : Except String (List Event))
    (now : String) (st : ADKWebInterface) (user_id message : String) :
    JDict × ADKWebInterface :=
  match get_or_create_session create st user_id with
  | (.error e, st', _) => (chatFailDict e st' user_id now, st')
  | (.ok session_id, st', _) =>
      match run with
      | .error e => (chatFailDict e st' user_id now, st')
      | .ok events =>
          ([("success", .b true),
            ("response", .s (finalResponseText events)),
            ("session_id", .s session_id),
            ("user_id", .s user_id),
            ("timestamp", .s now)], st')

/-- The failure dict of `save_session_to_memory` / `new_session`'s
`except` branches (src/adk_web.py lines 162-167 and 185-190). -/
def opFailDict (e : String) (user_id : String) : JDict :=
  [("success", .b false), ("error", .s e), ("user_id", .s user_id)]

/-- `ADKWebInterface.save_session_to_memory` (src/adk_web.py lines
134-167).  Oracles: `getS` for `session_service.get_session`, `add` for
`memory_service.add_session_to_memory`.  Returns the dict, the updated
state, and the number of remote calls performed. -/
def save_session_to_memory (getS : Except String Session) (add : Except String Unit)
    (st : ADKWebInterface) (user_id : String) :
    JDict × ADKWebInterface × Nat :=
  match List.lookup user_id st.sessions with
  | none =>
      ([("success", .b false), ("error", .s "No active session found for user")],
       st, 0)
  | some session_id =>
      match getS with
      | .error e => (opFailDict e user_id, st, 1)
      | .ok _completed =>
          match add with
          | .error e => (opFailDict e user_id, st, 2)
          | .ok _ =>
              ([("success", .b true),
                ("message", .s ("Session " ++ session_id ++ " saved to memory bank")),
                ("session_id", .s session_id),
                ("user_id", .s user_id)], st, 2)

/-- `ADKWebInterface.new_session` (src/adk_web.py lines 169-190).
`create` is the `session_service.create_session` oracle. -/
def new_session (create : Except String Session)
    (st : ADKWebInterface) (user_id : String) : JDict × ADKWebInterface :=
  match create with
  | .error e => (opFailDict e user_id, st)
  | .ok session =>
      ([("success", .b true),
        ("session_id", .s session.id),
        ("user_id", .s user_id),
        ("message", .s "New session created")],
       { st with sessions := insertAssoc user_id session.id st.sessions })

/-- `ADKWebInterface.get_session_info` (src/adk_web.py lines 192-199).
Pure: no remote call, no state change. -/
def get_session_info (st : ADKWebInterface) (user_id : String) : JDict :=
  [("user_id", .s user_id),
   ("session_id",
     match List.lookup user_id st.sessions with
     | some sid => .s sid
     | none => .null),
   ("has_session", .b (hasKey st.sessions user_id)),
   ("app_name",
     match st.app_name with
     | some a => .s a
     | none => .null)]

/-- `ADKWebInterface.generate_html_interface` (src/adk_web.py lines
201-520): a fixed literal HTML page.  Its markup is irrelevant to every
claim (only its identity as "the HTML page" matters), so the literal is
abbreviated to its title line here. -/
def generate_html_interface : String :=
  "<!DOCTYPE html> ADK Memory Bot - Web Interface"

/-- Body of an HTTP response produced by `ADKWebHandler`. -/
inductive RespBody where
  | html (page : String)
  | json (d : JDict)
  | errorPage (code : Nat)
  deriving DecidableEq, Repr

/-- An HTTP response: status code and body. -/
structure HttpResp where
  status : Nat
  body : RespBody
  deriving DecidableEq, Repr

/-- The JSON object of a POST body, restricted to the two keys the
handlers read: `data['user_id']` and `data['message']` (`none` = key
absent). -/
structure PostData where
  user_id : Option String
  message : Option String
  deriving DecidableEq, Repr

/-- The remote-call oracles a single POST dispatch may consume. -/
structure PostOracles where
  create : Except String Session
  run : Except String (List Event)
  now : String
  getS : Except String Session
  add : Except String Unit

/-- `ADKWebHandler.do_GET` (src/adk_web.py lines 542-549): `/` serves the
HTML page with status 200, every other path gets `send_error(404)`. -/
def do_GET (path : String) : HttpResp :=
  if path == "/" then ⟨200, .html generate_html_interface⟩
  else ⟨404, .errorPage 404⟩

/-- The 500 response of `do_POST`'s `except` branch (src/adk_web.py lines
579-584). -/
def post500 (e : String) : HttpResp :=
  ⟨500, .json [("success", .b false), ("error", .s e)]⟩

/-- `ADKWebHandler.do_POST` (src/adk_web.py lines 551-584).  `body` is the
result of `json.loads` on the request body: `.error e` a parse failure
(whose `str(e)` is `e`), `.ok data` the parsed object.  A missing
`data[k]` raises `KeyError(k)`, whose `str` is the quoted key; both kinds
of exception reach the `except` branch, which answers 500 with a failure
dict.  Known paths answer 200 with the operation's dict; an unknown path
answers 200 with the "Unknown endpoint" dict. -/
def do_POST (path : String) (body : Except String PostData) (o : PostOracles)
    (st : ADKWebInterface) : HttpResp × ADKWebInterface :=
  match body with
  | .error e => (post500 e, st)
  | .ok data =>
      if path == "/chat" then
        match data.user_id with
        | none => (post500 "'user_id'", st)
        | some uid =>
            match data.message with
            | none => (post500 "'message'", st)
            | some msg =>
                let r := chat o.create o.run o.now st uid msg
                (⟨200, .json r.1⟩, r.2)
      else if path == "/new_session" then
        match data.user_id with
        | none => (post500 "'user_id'", st)
        | some uid =>
            let r := new_session o.create st uid
            (⟨200, .json r.1⟩, r.2)
      else if path == "/save_memory" then
        match data.user_id with
        | none => (post500 "'user_id'", st)
        | some uid =>
            let r := save_session_to_memory o.getS o.add st uid
            (⟨200, .json r.1⟩, r.2.1)
      else
        (⟨200, .json [("success", .b false), ("error", .s "Unknown endpoint")]⟩, st)

/-- One invocation of a web-interface operation together with the oracle
answers its remote calls receive. -/
inductive Op where
  | opChat (create : Except String Session) (run : Except String (List Event))
      (now user_id message : String)
  | opGetOrCreate (create : Except String Session) (user_id : String)
  | opNewSession (create : Except String Session) (user_id : String)
  | opSaveMemory (getS : Except String Session) (add : Except String Unit)
      (user_id : String)
  | opSessionInfo (user_id : String)

/-- The state after running one operation (its returned dict dropped). -/
def applyOp (st : ADKWebInterface) : Op → ADKWebInterface
  | .opChat create run now uid msg => (chat create run now st uid msg).2
  | .opGetOrCreate create uid => (get_or_create_session create st uid).2.1
  | .opNewSession create uid => (new_session create st uid).2
  | .opSaveMemory getS add uid => (save_session_to_memory getS add st uid).2.1
  | .opSessionInfo _ => st

/-- The state after a sequence of operations. -/
def applyOps (st : ADKWebInterface) : List Op → ADKWebInterface
  | [] => st
  | op :: rest => applyOps (applyOp st op) rest

/-! ## Helper lemmas about the association-list session map -/

theorem lookup_insertAssoc_self (k v : String) (m : List (String × String)) :
    List.lookup k (insertAssoc k v m) = some v := by
  induction m with
  | nil => simp [insertAssoc, List.lookup]
  | cons hd t ih =>
      obtain ⟨k', v'⟩ := hd
      by_cases h : k' = k
      · subst h
        simp [insertAssoc, List.lookup]
      · have hb : (k' == k) = false := beq_eq_false_iff_ne.mpr h
        have hb' : (k == k') = false := beq_eq_false_iff_ne.mpr (Ne.symm h)
        simp [insertAssoc, hb, List.lookup, hb', ih]

theorem lookup_insertAssoc_ne (k v u : String) (m : List (String × String))
    (h : u ≠ k) :
    List.lookup u (insertAssoc k v m) = List.lookup u m := by
  induction m with
  | nil =>
      have hb : (u == k) = false := beq_eq_false_iff_ne.mpr h
      simp [insertAssoc, List.lookup, hb]
  | cons hd t ih =>
      obtain ⟨k', v'⟩ := hd
      by_cases hk : k' = k
      · subst hk
        have hb : (u == k') = false := beq_eq_false_iff_ne.mpr h
        simp [insertAssoc, List.lookup, hb]
      · have hb : (k' == k) = false := beq_eq_false_iff_ne.mpr hk
        by_cases hu : u = k'
        · subst hu
          simp [insertAssoc, hb, List.lookup]
        · have hb' : (u == k') = false := beq_eq_false_iff_ne.mpr hu
          simp [insertAssoc, hb, List.lookup, hb', ih]

theorem lookup_insertAssoc_isSome (k v u : String) (m : List (String × String))
    (h : (List.lookup u m).isSome) :
    (List.lookup u (insertAssoc k v m)).isSome := by
  by_cases hu : u = k
  · subst hu
    simp [lookup_insertAssoc_self]
  · rwa [lookup_insertAssoc_ne k v u m hu]

theorem hasKey_iff_lookup_isSome (m : List (String × String)) (k : String) :
    hasKey m k = true ↔ (List.lookup k m).isSome = true := by
  induction m with
  | nil => simp [hasKey, List.lookup]
  | cons hd t ih =>
      obtain ⟨k', v'⟩ := hd
      by_cases h : k' = k
      · subst h
        simp [hasKey, List.lookup]
      · have hb : (k' == k) = false := beq_eq_false_iff_ne.mpr h
        have hb' : (k == k') = false := beq_eq_false_iff_ne.mpr (Ne.symm h)
        simpa [hasKey, List.lookup, hb, hb'] using ih

/-! ## Claim C1 -/

/-- Claim C1 as stated: the event loop stops at the first final event and
returns the text of the first part of that event's content; an exhausted
stream yields the default string. -/
def claimC1 : Prop :=
  (∀ (events : List Event) (e : Event),
      List.find? (fun ev => ev.is_final_response) events = some e →
      ∃ c p rest, e.content = some c ∧ c.parts = p :: rest ∧
        finalResponseText events = p.text) ∧
  (∀ events : List Event,
      List.find? (fun ev => ev.is_final_response) events = none →
      finalResponseText events = defaultFinalText)

/-- Claim C1 is false as stated: on the stream whose single event is final
but has no content, the loop returns the default string, and there is no
"first part of that event's content" at all. -/
theorem c1_counterexample : ¬ claimC1 := by
  intro h
  obtain ⟨c, p, rest, hc, -, -⟩ :=
    h.1 [⟨true, none⟩] ⟨true, none⟩ (by decide)
  exact Option.noConfusion hc

theorem finalResponseText_eq_find (events : List Event) :
    finalResponseText events =
      (match List.find? (fun ev => ev.is_final_response) events with
       | some e =>
           match e.content with
           | some c =>
               match c.parts with
               | p :: _ => p.text
               | [] => defaultFinalText
           | none => defaultFinalText
       | none => defaultFinalText) := by
  induction events with
  | nil => rfl
  | cons e rest ih =>
      by_cases hf : e.is_final_response
      · simp [finalResponseText, List.find?, hf]
      · simp only [finalResponseText, List.find?]
        rw [if_neg hf]
        simp only [Bool.not_eq_true] at hf
        rw [hf]
        exact ih

/-- Claim C1 (amended): the turn operation consumes events in order and
stops at the first final event; it returns the text of that event's first
content part when the event has content with at least one part, and the
default string when the final event lacks content or parts, or when the
stream is exhausted without any final event.  The web `chat` reports the
same text in its `response` field. -/
theorem c1_final_response (events : List Event) (q now msg : String)
    (s : Session) (st : ADKWebInterface) (uid : String) :
    call_agent (.ok events) q =
      (match List.find? (fun ev => ev.is_final_response) events with
       | some e =>
           match e.content with
           | some c =>
               match c.parts with
               | p :: _ => p.text
               | [] => defaultFinalText
           | none => defaultFinalText
       | none => defaultFinalText) ∧
    jget (chat (.ok s) (.ok events) now st uid msg).1 "response" =
      some (.s (finalResponseText events)) := by
  constructor
  · exact finalResponseText_eq_find events
  · cases hl : List.lookup uid st.sessions with
    | some sid => simp [chat, get_or_create_session, hl, jget, List.lookup]
    | none => simp [chat, get_or_create_session, hl, jget, List.lookup]

/-! ## Claim C2 -/

/-- Claim C2: `get_or_create_session` returns the cached session id with no
creation call when one exists; otherwise it creates a session, records its
id, and returns it; and immediately after a successful call, a second call
for the same user returns the same id with no creation call. -/
theorem c2_get_or_create_session (create create' : Except String Session)
    (st : ADKWebInterface) (uid : String) :
    (∀ sid, List.lookup uid st.sessions = some sid →
        get_or_create_session create st uid = (.ok sid, st, 0)) ∧
    (List.lookup uid st.sessions = none → ∀ s, create = .ok s →
        get_or_create_session create st uid =
          (.ok s.id, { st with sessions := insertAssoc uid s.id st.sessions }, 1)) ∧
    (∀ sid st' n, get_or_create_session create st uid = (.ok sid, st', n) →
        get_or_create_session create' st' uid = (.ok sid, st', 0)) := by
  refine ⟨?_, ?_, ?_⟩
  · intro sid h
    simp [get_or_create_session, h]
  · intro h s hc
    subst hc
    simp [get_or_create_session, h]
  · intro sid st' n h
    cases hl : List.lookup uid st.sessions with
    | some sid0 =>
        simp only [get_or_create_session, hl, Prod.mk.injEq, Except.ok.injEq] at h
        obtain ⟨rfl, rfl, -⟩ := h
        simp [get_or_create_session, hl]
    | none =>
        cases create with
        | error e =>
            simp [get_or_create_session, hl] at h
        | ok s =>
            simp only [get_or_create_session, hl, Prod.mk.injEq, Except.ok.injEq] at h
            obtain ⟨rfl, rfl, -⟩ := h
            simp [get_or_create_session, lookup_insertAssoc_self]

/-- Witness for C2 at a concrete cached user and a concrete fresh user. -/
theorem c2_witness :
    get_or_create_session (.ok ⟨"s9"⟩)
      ⟨none, none, none, none, none, none, [("alice", "s1")]⟩ "alice" =
      (.ok "s1", ⟨none, none, none, none, none, none, [("alice", "s1")]⟩, 0) :=
  (c2_get_or_create_session (.ok ⟨"s9"⟩) (.ok ⟨"s9"⟩)
      ⟨none, none, none, none, none, none, [("alice", "s1")]⟩ "alice").1
    "s1" (by decide)

/-! ## Claim C4 -/

/-- Claim C4: for a user with no cached session, `save_session_to_memory`
returns the "No active session found for user" failure dict, performs no
remote call, and leaves the state unchanged. -/
theorem c4_save_without_session (getS : Except String Session)
    (add : Except String Unit) (st : ADKWebInterface) (uid : String)
    (h : List.lookup uid st.sessions = none) :
    save_session_to_memory getS add st uid =
      ([("success", .b false), ("error", .s "No active session found for user")],
       st, 0) := by
  simp [save_session_to_memory, h]

/-- Witness for C4 on the empty session map. -/
theorem c4_witness :
    save_session_to_memory (.ok ⟨"s"⟩) (.ok ()) ADKWebInterface.new "bob" =
      ([("success", .b false), ("error", .s "No active session found for user")],
       ADKWebInterface.new, 0) :=
  c4_save_without_session (.ok ⟨"s"⟩) (.ok ()) ADKWebInterface.new "bob" (by decide)

/-! ## State-shape lemmas for the operations -/

theorem chat_state (create : Except String Session)
    (run : Except String (List Event)) (now : String) (st : ADKWebInterface)
    (uid msg : String) :
    (chat create run now st uid msg).2 = (get_or_create_session create st uid).2.1 := by
  unfold chat
  rcases h : get_or_create_session create st uid with ⟨r, st', n⟩
  cases r with
  | error e => rfl
  | ok sid => cases run <;> rfl

theorem get_or_create_state (create : Except String Session)
    (st : ADKWebInterface) (uid : String) :
    (get_or_create_session create st uid).2.1 = st ∨
    ∃ v, (get_or_create_session create st uid).2.1 =
      { st with sessions := insertAssoc uid v st.sessions } := by
  cases hl : List.lookup uid st.sessions with
  | some sid => left; simp [get_or_create_session, hl]
  | none =>
      cases create with
      | error e => left; simp [get_or_create_session, hl]
      | ok s => right; exact ⟨s.id, by simp [get_or_create_session, hl]⟩

theorem save_state (getS : Except String Session) (add : Except String Unit)
    (st : ADKWebInterface) (uid : String) :
    (save_session_to_memory getS add st uid).2.1 = st := by
  unfold save_session_to_memory
  cases List.lookup uid st.sessions with
  | none => rfl
  | some sid =>
      cases getS with
      | error e => rfl
      | ok s => cases add <;> rfl

theorem new_session_state (create : Except String Session)
    (st : ADKWebInterface) (uid : String) :
    (new_session create st uid).2 = st ∨
    ∃ v, (new_session create st uid).2 =
      { st with sessions := insertAssoc uid v st.sessions } := by
  cases create with
  | error e => left; rfl
  | ok s => right; exact ⟨s.id, rfl⟩

theorem applyOp_state (st : ADKWebInterface) (op : Op) :
    applyOp st op = st ∨
    ∃ k v, applyOp st op = { st with sessions := insertAssoc k v st.sessions } := by
  cases op with
  | opChat create run now uid msg =>
      rw [applyOp, chat_state]
      rcases get_or_create_state create st uid with h | ⟨v, h⟩
      · exact Or.inl h
      · exact Or.inr ⟨uid, v, h⟩
  | opGetOrCreate create uid =>
      rw [applyOp]
      rcases get_or_create_state create st uid with h | ⟨v, h⟩
      · exact Or.inl h
      · exact Or.inr ⟨uid, v, h⟩
  | opNewSession create uid =>
      rw [applyOp]
      rcases new_session_state create st uid with h | ⟨v, h⟩
      · exact Or.inl h
      · exact Or.inr ⟨uid, v, h⟩
  | opSaveMemory getS add uid => exact Or.inl (save_state getS add st uid)
  | opSessionInfo uid => exact Or.inl rfl

/-! ## Claim C5 -/

/-- Claim C5: no operation ever removes a user's entry from the session
mapping — after any sequence of operations, every user that had a cached
session id still has one. -/
theorem c5_no_eviction (ops : List Op) (st : ADKWebInterface) (uid : String)
    (h : (List.lookup uid st.sessions).isSome = true) :
    (List.lookup uid (applyOps st ops).sessions).isSome = true := by
  induction ops generalizing st with
  | nil => exact h
  | cons op rest ih =>
      rw [applyOps]
      apply ih
      rcases applyOp_state st op with heq | ⟨k, v, heq⟩
      · rwa [heq]
      · rw [heq]
        exact lookup_insertAssoc_isSome k v uid st.sessions h

/-- Witness for C5: one chat, one save, one new session for another user,
and a session-info query never evict Alice's entry. -/
theorem c5_witness :
    (List.lookup "alice"
      (applyOps ⟨none, none, none, none, none, none, [("alice", "s1")]⟩
        [Op.opChat (.ok ⟨"s7"⟩) (.ok []) "t0" "alice" "hi",
         Op.opSaveMemory (.ok ⟨"s1"⟩) (.ok ()) "alice",
         Op.opNewSession (.ok ⟨"s8"⟩) "bob",
         Op.opSessionInfo "alice"]).sessions).isSome = true :=
  c5_no_eviction
    [Op.opChat (.ok ⟨"s7"⟩) (.ok []) "t0" "alice" "hi",
     Op.opSaveMemory (.ok ⟨"s1"⟩) (.ok ()) "alice",
     Op.opNewSession (.ok ⟨"s8"⟩) "bob",
     Op.opSessionInfo "alice"]
    ⟨none, none, none, none, none, none, [("alice", "s1")]⟩ "alice" (by decide)

/-! ## Claim C7 -/

/-- All fields of the interface other than the session mapping agree. -/
def sameNonSessionFields (st st' : ADKWebInterface) : Prop :=
  st'.agent_engine = st.agent_engine ∧
  st'.agent_engine_id = st.agent_engine_id ∧
  st'.session_service = st.session_service ∧
  st'.memory_service = st.memory_service ∧
  st'.agent = st.agent ∧
  st'.app_name = st.app_name

/-- Claim C7: every web-interface operation leaves all fields other than
the session mapping unchanged, and `save_session_to_memory` and
`get_session_info` do not change the state (hence the mapping) at all. -/
theorem c7_frame (op : Op) (st : ADKWebInterface) :
    sameNonSessionFields st (applyOp st op) ∧
    (∀ getS add uid, applyOp st (.opSaveMemory getS add uid) = st) ∧
    (∀ uid, applyOp st (.opSessionInfo uid) = st) := by
  refine ⟨?_, fun getS add uid => save_state getS add st uid, fun uid => rfl⟩
  rcases applyOp_state st op with heq | ⟨k, v, heq⟩ <;>
    rw [heq] <;> exact ⟨rfl, rfl, rfl, rfl, rfl, rfl⟩

/-! ## Claim C8 -/

/-- Claim C8: when `chat` fails it returns success `false`, the exception
text as `error`, and as `session_id` the user's cached id when one exists
(including one created by this very call) and the string "unknown" when
none does. -/
theorem c8_chat_failure_dict (e now msg : String) (st : ADKWebInterface)
    (uid : String) (create : Except String Session) :
    (∀ run, List.lookup uid st.sessions = none →
        (chat (.error e) run now st uid msg).1 =
          [("success", .b false), ("error", .s e), ("session_id", .s "unknown"),
           ("user_id", .s uid), ("timestamp", .s now)]) ∧
    (∀ sid, List.lookup uid st.sessions = some sid →
        (chat create (.error e) now st uid msg).1 =
          [("success", .b false), ("error", .s e), ("session_id", .s sid),
           ("user_id", .s uid), ("timestamp", .s now)]) ∧
    (∀ s : Session, List.lookup uid st.sessions = none →
        (chat (.ok s) (.error e) now st uid msg).1 =
          [("success", .b false), ("error", .s e), ("session_id", .s s.id),
           ("user_id", .s uid), ("timestamp", .s now)]) := by
  refine ⟨?_, ?_, ?_⟩
  · intro run h
    simp [chat, get_or_create_session, h, chatFailDict]
  · intro sid h
    simp [chat, get_or_create_session, h, chatFailDict]
  · intro s h
    simp [chat, get_or_create_session, h, chatFailDict, lookup_insertAssoc_self]

/-- Witness for C8: the runner raising for a user with a cached session. -/
theorem c8_witness :
    (chat (.ok ⟨"s9"⟩) (.error "boom") "t0"
      ⟨none, none, none, none, none, none, [("alice", "s1")]⟩ "alice" "hi").1 =
      [("success", .b false), ("error", .s "boom"), ("session_id", .s "s1"),
       ("user_id", .s "alice"), ("timestamp", .s "t0")] :=
  (c8_chat_failure_dict "boom" "t0" "hi"
      ⟨none, none, none, none, none, none, [("alice", "s1")]⟩ "alice"
      (.ok ⟨"s9"⟩)).2.1 "s1" (by decide)

/-! ## Claim C9 -/

/-- Claim C9: `new_session` is atomic on the mapping — on a failed remote
creation the state (hence the user's cached id) is exactly what it was,
and on success the mapping holds the new session's id and the returned
dict's `session_id` equals it. -/
theorem c9_new_session_atomic (st : ADKWebInterface) (uid : String) :
    (∀ e, new_session (.error e) st uid =
        ([("success", .b false), ("error", .s e), ("user_id", .s uid)], st)) ∧
    (∀ s : Session,
        new_session (.ok s) st uid =
          ([("success", .b true), ("session_id", .s s.id), ("user_id", .s uid),
            ("message", .s "New session created")],
           { st with sessions := insertAssoc uid s.id st.sessions }) ∧
        List.lookup uid (new_session (.ok s) st uid).2.sessions = some s.id) := by
  refine ⟨fun e => rfl, fun s => ⟨rfl, ?_⟩⟩
  simp [new_session, lookup_insertAssoc_self]

/-! ## Claim C10 -/

theorem hasKey_eq_lookup_isSome (m : List (String × String)) (k : String) :
    hasKey m k = (List.lookup k m).isSome := by
  by_cases h : (List.lookup k m).isSome = true
  · rw [h, (hasKey_iff_lookup_isSome m k).mpr h]
  · have h1 : (List.lookup k m).isSome = false := by
      cases hx : (List.lookup k m).isSome
      · rfl
      · exact absurd hx h
    have h2 : hasKey m k = false := by
      cases hx : hasKey m k
      · rfl
      · exact absurd ((hasKey_iff_lookup_isSome m k).mp hx) h
    rw [h1, h2]

/-- Claim C10: in the dict returned by `get_session_info`, `has_session`
is `true` exactly when `session_id` is not null. -/
theorem c10_session_info_consistent (st : ADKWebInterface) (uid : String) :
    jget (get_session_info st uid) "has_session" = some (.b true) ↔
    jget (get_session_info st uid) "session_id" ≠ some .null := by
  cases hl : List.lookup uid st.sessions with
  | none => simp [get_session_info, jget, List.lookup, hasKey_eq_lookup_isSome, hl]
  | some sid => simp [get_session_info, jget, List.lookup, hasKey_eq_lookup_isSome, hl]

/-! ## Claim C3 -/

/-- Claim C3's quantitative core as stated: every operation performs a
single remote procedure call; in particular `save_session_to_memory`
performs at most one. -/
def claimC3 : Prop :=
  ∀ (getS : Except String Session) (add : Except String Unit)
    (st : ADKWebInterface) (user_id : String),
    (save_session_to_memory getS add st user_id).2.2 ≤ 1

/-- Claim C3 is false as stated: for a user with a cached session,
`save_session_to_memory` performs two remote calls (`get_session` and
`add_session_to_memory`), not one. -/
theorem c3_counterexample : ¬ claimC3 := by
  intro h
  have h2 := h (.ok ⟨"s1"⟩) (.ok ())
    ⟨none, none, none, none, none, none, [("alice", "s1")]⟩ "alice"
  revert h2
  decide

/-- Claim C3 (amended): the web interface's `chat`, `new_session`, and
`save_session_to_memory` wrap their remote calls — up to two of them, not
one — in a try/except that turns an exception into a dict with success
`false` and the exception text as `error`; `initialize` instead re-raises
after printing, `get_session_info` performs no remote call, and the CLI
bot's `call_agent` returns an apology string rather than a dict. -/
theorem c3_error_handling (e uuid q now msg : String) (st : ADKWebInterface)
    (uid : String) (create getS : Except String Session)
    (add : Except String Unit) :
    (new_session (.error e) st uid).1 =
      [("success", .b false), ("error", .s e), ("user_id", .s uid)] ∧
    (∀ sid, List.lookup uid st.sessions = some sid →
        (save_session_to_memory (.error e) add st uid).1 =
          [("success", .b false), ("error", .s e), ("user_id", .s uid)]) ∧
    (∀ sid (s : Session), List.lookup uid st.sessions = some sid →
        (save_session_to_memory (.ok s) (.error e) st uid).1 =
          [("success", .b false), ("error", .s e), ("user_id", .s uid)]) ∧
    (∀ sid, List.lookup uid st.sessions = some sid →
        jget (chat create (.error e) now st uid msg).1 "success" =
          some (.b false) ∧
        jget (chat create (.error e) now st uid msg).1 "error" = some (.s e)) ∧
    (save_session_to_memory getS add st uid).2.2 ≤ 2 ∧
    initServices (.error e) uuid st = .error e ∧
    call_agent (.error e) q = "Sorry, I encountered an error: " ++ e := by
  refine ⟨rfl, ?_, ?_, ?_, ?_, rfl, rfl⟩
  · intro sid h
    simp [save_session_to_memory, h, opFailDict]
  · intro sid s h
    simp [save_session_to_memory, h, opFailDict]
  · intro sid h
    constructor <;>
      simp [chat, get_or_create_session, h, chatFailDict, jget, List.lookup]
  · rcases hl : List.lookup uid st.sessions with - | sid
    · norm_num [save_session_to_memory, hl]
    · rcases getS with e' | s
      · norm_num [save_session_to_memory, hl]
      · rcases add with e' | u <;> norm_num [save_session_to_memory, hl]

/-- Witness for C3 (amended) at a user with a cached session and a failing
`get_session`. -/
theorem c3_witness :
    (save_session_to_memory (.error "boom") (.ok ())
      ⟨none, none, none, none, none, none, [("alice", "s1")]⟩ "alice").1 =
      [("success", .b false), ("error", .s "boom"), ("user_id", .s "alice")] :=
  ((c3_error_handling "boom" "u7" "q" "t0" "hi"
      ⟨none, none, none, none, none, none, [("alice", "s1")]⟩ "alice"
      (.ok ⟨"s1"⟩) (.ok ⟨"s1"⟩) (.ok ())).2.1) "s1" (by decide)

/-! ## Claim C6 -/

/-- Claim C6 as stated: every POST is routed by exact path — the three
known paths answer 200 with the operation's JSON result, every other POST
path answers 200 with the "Unknown endpoint" dict — a GET of `/` answers
200 with the HTML page, and every other GET answers 404. -/
def claimC6 : Prop :=
  (∀ body o st, (do_POST "/chat" body o st).1.status = 200) ∧
  (∀ uid msg o st,
      do_POST "/chat" (.ok ⟨some uid, some msg⟩) o st =
        (⟨200, .json (chat o.create o.run o.now st uid msg).1⟩,
         (chat o.create o.run o.now st uid msg).2)) ∧
  (∀ body o st, (do_POST "/new_session" body o st).1.status = 200) ∧
  (∀ uid m o st,
      do_POST "/new_session" (.ok ⟨some uid, m⟩) o st =
        (⟨200, .json (new_session o.create st uid).1⟩,
         (new_session o.create st uid).2)) ∧
  (∀ body o st, (do_POST "/save_memory" body o st).1.status = 200) ∧
  (∀ uid m o st,
      do_POST "/save_memory" (.ok ⟨some uid, m⟩) o st =
        (⟨200, .json (save_session_to_memory o.getS o.add st uid).1⟩,
         (save_session_to_memory o.getS o.add st uid).2.1)) ∧
  (∀ path body o st,
      path ≠ "/chat" → path ≠ "/new_session" → path ≠ "/save_memory" →
      do_POST path body o st =
        (⟨200, .json [("success", .b false), ("error", .s "Unknown endpoint")]⟩,
         st)) ∧
  do_GET "/" = ⟨200, .html generate_html_interface⟩ ∧
  (∀ path, path ≠ "/" → do_GET path = ⟨404, .errorPage 404⟩)

/-- Claim C6 is false as stated: a POST whose body is not valid JSON is
answered 500 by the handler's `except` branch whatever its path, so
neither "/chat answers 200" nor "any other POST path answers 200" holds
for it. -/
theorem c6_counterexample : ¬ claimC6 := by
  intro h
  have h2 := h.1 (.error "Expecting value")
    ⟨.ok ⟨"s"⟩, .ok [], "t0", .ok ⟨"s"⟩, .ok ()⟩ ADKWebInterface.new
  revert h2
  decide

/-- Claim C6 (amended): provided the POST body parses as JSON and carries
the fields the endpoint reads, the dispatcher routes by exact path —
`/chat`, `/new_session`, and `/save_memory` answer 200 with the
corresponding operation's JSON dict, and any other POST path answers 200
with the "Unknown endpoint" dict; a body that fails to parse is answered
500 with a failure dict on every path, and a known endpoint whose parsed
body lacks a field it reads (`user_id`, or `message` for `/chat`) is
answered 500 with the `KeyError` text.  A GET of `/` answers 200 with the
HTML page and every other GET answers 404. -/
theorem c6_dispatch (o : PostOracles) (st : ADKWebInterface)
    (uid msg e : String) (m : Option String) (data : PostData) (path : String) :
    do_POST "/chat" (.ok ⟨some uid, some msg⟩) o st =
      (⟨200, .json (chat o.create o.run o.now st uid msg).1⟩,
       (chat o.create o.run o.now st uid msg).2) ∧
    do_POST "/new_session" (.ok ⟨some uid, m⟩) o st =
      (⟨200, .json (new_session o.create st uid).1⟩,
       (new_session o.create st uid).2) ∧
    do_POST "/save_memory" (.ok ⟨some uid, m⟩) o st =
      (⟨200, .json (save_session_to_memory o.getS o.add st uid).1⟩,
       (save_session_to_memory o.getS o.add st uid).2.1) ∧
    do_POST "/chat" (.ok ⟨none, m⟩) o st = (post500 "'user_id'", st) ∧
    do_POST "/chat" (.ok ⟨some uid, none⟩) o st = (post500 "'message'", st) ∧
    do_POST "/new_session" (.ok ⟨none, m⟩) o st = (post500 "'user_id'", st) ∧
    do_POST "/save_memory" (.ok ⟨none, m⟩) o st = (post500 "'user_id'", st) ∧
    (path ≠ "/chat" → path ≠ "/new_session" → path ≠ "/save_memory" →
        do_POST path (.ok data) o st =
          (⟨200, .json [("success", .b false), ("error", .s "Unknown endpoint")]⟩,
           st)) ∧
    do_POST path (.error e) o st = (post500 e, st) ∧
    do_GET "/" = ⟨200, .html generate_html_interface⟩ ∧
    (path ≠ "/" → do_GET path = ⟨404, .errorPage 404⟩) := by
  refine ⟨rfl, ?_, ?_, rfl, rfl, ?_, ?_, ?_, rfl, rfl, ?_⟩
  · simp [do_POST]
  · simp [do_POST]
  · simp [do_POST]
  · simp [do_POST]
  · intro h1 h2 h3
    have b1 : (path == "/chat") = false := beq_eq_false_iff_ne.mpr h1
    have b2 : (path == "/new_session") = false := beq_eq_false_iff_ne.mpr h2
    have b3 : (path == "/save_memory") = false := beq_eq_false_iff_ne.mpr h3
    simp [do_POST, b1, b2, b3]
  · intro h1
    have b1 : (path == "/") = false := beq_eq_false_iff_ne.mpr h1
    simp [do_GET, b1]

/-- Witness for C6 (amended): an unknown POST path with a well-formed body
and an unknown GET path. -/
theorem c6_witness :
    do_POST "/bogus" (.ok ⟨none, none⟩)
      ⟨.ok ⟨"s"⟩, .ok [], "t0", .ok ⟨"s"⟩, .ok ()⟩ ADKWebInterface.new =
      (⟨200, .json [("success", .b false), ("error", .s "Unknown endpoint")]⟩,
       ADKWebInterface.new) ∧
    do_GET "/bogus" = ⟨404, .errorPage 404⟩ := by
  have h := c6_dispatch ⟨.ok ⟨"s"⟩, .ok [], "t0", .ok ⟨"s"⟩, .ok ()⟩
    ADKWebInterface.new "u" "m" "e" none ⟨none, none⟩ "/bogus"
  exact ⟨h.2.2.2.2.2.2.2.1 (by decide) (by decide) (by decide),
         h.2.2.2.2.2.2.2.2.2.2 (by decide)⟩

end ADK
